import Mathlib

/-
Shallow embedding of the `mylib` library and the `SimplePipeline`
documentation example of the taskflow-cpp-template repository.

Conventions of the embedding:
* C++ `int` is modelled as `Int`; the representable range is
  `intMin = -2^31 .. intMax = 2^31 - 1`.  Signed overflow of plain `int`
  arithmetic is undefined behaviour, so `Add` returns `Option Int` and
  yields `none` outside the representable range.  Arithmetic on
  `std::atomic<int>` (`fetch_add`) is defined by the standard to wrap in
  two's complement, modelled by `wrap32`.
* C++ `std::uint64_t` is modelled as `Nat` with every multiplication
  reduced modulo `2 ^ 64`.
* `std::string` is modelled as `String`.
* Observable program state (the output stream) is modelled explicitly as
  `Stdout`; functions that could interact with it are also given as state
  transformers threading a `Stdout` value.
-/

namespace mylib

/-- The smallest value of a 32-bit C++ `int`, i.e. `-2 ^ 31`. -/
def intMin : Int := -2147483648

/-- The largest value of a 32-bit C++ `int`, i.e. `2 ^ 31 - 1`. -/
def intMax : Int := 2147483647

/-- Two's-complement wrap-around into the 32-bit `int` range
(`(x + 2 ^ 31) mod 2 ^ 32 - 2 ^ 31`), the semantics the C++ standard gives
to `std::atomic<int>::fetch_add`. -/
def wrap32 (x : Int) : Int := (x + 2147483648) % 4294967296 - 2147483648

/-- The observable output stream of the program. -/
def Stdout := List String

/-- Embedding of `mylib::Greet` from the library source:
`return "Hello, " + name + "!";`. -/
def Greet (name : String) : String := "Hello, " ++ name ++ "!"

/-- Embedding of `mylib::Add` from the library source: `return lhs + rhs;`
on `int`.  Signed-`int` overflow is undefined behaviour in C++, so the
embedding returns `none` when the mathematical sum leaves the `int` range
and the exact sum otherwise. -/
def Add (lhs rhs : Int) : Option Int :=
  if intMin ≤ lhs + rhs ∧ lhs + rhs ≤ intMax then some (lhs + rhs) else none

/-- Embedding of the loop body of `mylib::Factorial`:
`for (int idx = 2; idx <= num; ++idx) result *= uint64_t(idx);`.
`k` counts the remaining iterations, `idx` is the loop variable and
`result` the `std::uint64_t` accumulator, reduced modulo `2 ^ 64` at every
multiplication exactly as the machine type does. -/
def factLoop : Nat → Nat → Nat → Nat
  | result, _, 0 => result
  | result, idx, k + 1 => factLoop (result * idx % 2 ^ 64) (idx + 1) k

/-- Embedding of `mylib::Factorial` from the library source:
`if (num <= 1) return 1;` followed by the loop over `idx = 2 .. num`,
which performs `num - 1` iterations starting at `idx = 2`.  This value is
the one the loop computes on the inputs where its `int` counter stays
defined, i.e. `num < intMax`; the behaviour at the `int` boundary is
captured by `FactorialChecked`. -/
def Factorial (num : Int) : Nat :=
  if num ≤ 1 then 1 else factLoop 1 2 (num.toNat - 1)

/-- Embedding of `mylib::Factorial` at the public `int` interface with the
loop counter's own `int` range accounted for.  The loop
`for (int idx = 2; idx <= num; ++idx)` runs its body at every
`idx = 2 .. num`; after the body at `idx = intMax` the increment `++idx`
is signed-`int` overflow — undefined behaviour (and under wrap semantics
`idx <= num` never becomes false, so the loop never terminates).  That
happens exactly when `num = intMax`, the largest representable argument,
so the embedding returns `none` there and the loop's value otherwise. -/
def FactorialChecked (num : Int) : Option Nat :=
  if num ≤ 1 then some 1
  else if num = intMax then none
  else some (factLoop 1 2 (num.toNat - 1))

/-- Modelled from the spec: the implementation of `PrintGreeting` is not in
the repository sources (only its test caller `MyLibTest.PrintGreetingRuns`
is); the spec describes it as "one no-op print function".  It is modelled
as a state transformer on the output stream that performs no observable
action and whose result is `Except.ok`, i.e. no exception is thrown. -/
def PrintGreeting (s : Stdout) : Except String (Unit × Stdout) :=
  Except.ok ((), s)

/-- State-transformer form of `Greet`: the C++ body reads no non-local
state and performs no output, so the program state passes through
untouched. -/
def GreetRun (s : Stdout) (name : String) : String × Stdout := (Greet name, s)

/-- State-transformer form of `Add`: the C++ body reads no non-local state
and performs no output, so the program state passes through untouched. -/
def AddRun (s : Stdout) (lhs rhs : Int) : Option Int × Stdout :=
  (Add lhs rhs, s)

/-- State-transformer form of `Factorial`: the C++ body reads no non-local
state and performs no output, so the program state passes through
untouched. -/
def FactorialRun (s : Stdout) (num : Int) : Nat × Stdout :=
  (Factorial num, s)

/-- Product `idx * (idx + 1) * ... * (idx + k - 1)` of `k` consecutive
integers starting at `idx`; the mathematical value the factorial loop
accumulates before reduction modulo `2 ^ 64`. -/
def prodFrom (idx : Nat) : Nat → Nat
  | 0 => 1
  | k + 1 => idx * prodFrom (idx + 1) k

/-- Embedding of the state of `mylib::SimplePipeline` from the primer
documentation: the single data member `std::atomic<int> counter_`. -/
structure SimplePipeline where
  counter : Int
deriving DecidableEq, Repr

/-- The constructor `SimplePipeline() : counter_(0)`. -/
def SimplePipeline.init : SimplePipeline := ⟨0⟩

/-- Task A of the pipeline: `counter_.fetch_add(1, relaxed)`, with the
two's-complement wrap of atomic `int` arithmetic. -/
def taskA (c : Int) : Int := wrap32 (c + 1)

/-- Task B of the pipeline: `counter_.fetch_add(1, relaxed)`, with the
two's-complement wrap of atomic `int` arithmetic. -/
def taskB (c : Int) : Int := wrap32 (c + 1)

/-- Embedding of `SimplePipeline::Run`: builds tasks A and B, declares
`task_a.precede(task_b)` so A's increment runs before B's, waits for the
taskflow, and returns the final counter load together with the new object
state. -/
def SimplePipeline.Run (p : SimplePipeline) : Int × SimplePipeline :=
  let c := taskB (taskA p.counter)
  (c, ⟨c⟩)

/-- Embedding of the const method `SimplePipeline::GetCounter`: returns the
counter load and leaves the object state as it was. -/
def SimplePipeline.GetCounter (p : SimplePipeline) : Int × SimplePipeline :=
  (p.counter, p)

/-- Embedding of `SimplePipeline::Reset`: `counter_.store(0, relaxed)`. -/
def SimplePipeline.Reset (_ : SimplePipeline) : SimplePipeline := ⟨0⟩

/-- The object state after `n` consecutive calls of `Run()` on a freshly
constructed pipeline. -/
def SimplePipeline.runs : Nat → SimplePipeline
  | 0 => SimplePipeline.init
  | n + 1 => ((SimplePipeline.runs n).Run).2

/-- The two tasks of the `SimplePipeline` taskflow graph. -/
inductive SPTask
  | A
  | B
deriving DecidableEq, Repr

/-- The dependency edges of the taskflow graph: exactly the single edge
declared by `task_a.precede(task_b)`. -/
def spEdges : List (SPTask × SPTask) := [(SPTask.A, SPTask.B)]

/-- The increment each task performs on the shared counter. -/
def runTask : SPTask → Int → Int
  | SPTask.A => taskA
  | SPTask.B => taskB

/-- A schedule the Taskflow executor may realise for this graph: every task
runs exactly once (the list has length two and contains both tasks) and
every declared precedence edge is respected (the source task occurs
strictly before the target task). -/
def isSchedule (l : List SPTask) : Bool :=
  l.length == 2 && l.contains SPTask.A && l.contains SPTask.B &&
    spEdges.all fun e => decide (l.indexOf e.1 < l.indexOf e.2)

/-- Executing a schedule: each task in order applies its increment to the
counter. -/
def execSchedule (l : List SPTask) (c : Int) : Int :=
  l.foldl (fun c t => runTask t c) c

end mylib

namespace mylib

/-! Helper lemmas. -/

/-- `wrap32` is the identity on values already inside the `int` range. -/
theorem wrap32_eq_self (x : Int) (h1 : intMin ≤ x) (h2 : x ≤ intMax) :
    wrap32 x = x := by
  simp only [wrap32, intMin, intMax] at *
  omega

/-- A single `Run` away from the overflow boundary adds exactly two to the
counter. -/
theorem Run_no_overflow (p : SimplePipeline) (h1 : intMin ≤ p.counter)
    (h2 : p.counter ≤ intMax - 2) :
    (p.Run).1 = p.counter + 2 ∧ ((p.Run).2).counter = p.counter + 2 := by
  have hA : taskA p.counter = p.counter + 1 := by
    rw [taskA]
    exact wrap32_eq_self _ (by simp only [intMin, intMax] at *; omega)
      (by simp only [intMin, intMax] at *; omega)
  have hB : taskB (p.counter + 1) = p.counter + 2 := by
    rw [taskB]
    have := wrap32_eq_self (p.counter + 1 + 1)
      (by simp only [intMin, intMax] at *; omega)
      (by simp only [intMin, intMax] at *; omega)
    rw [this]; ring
  constructor
  · show taskB (taskA p.counter) = p.counter + 2
    rw [hA, hB]
  · show taskB (taskA p.counter) = p.counter + 2
    rw [hA, hB]

/-- The counter after `n` runs of a fresh pipeline, below the overflow
boundary, is `2 * n`. -/
theorem runs_counter : ∀ n : Nat, n ≤ 2 ^ 30 - 1 →
    (SimplePipeline.runs n).counter = 2 * (n : Int) := by
  intro n
  induction n with
  | zero => intro _; rfl
  | succ n ih =>
    intro hn
    have hc := ih (by omega)
    have hb := Run_no_overflow (SimplePipeline.runs n)
      (by rw [hc]; simp only [intMin]; omega)
      (by rw [hc]; simp only [intMax]; omega)
    show ((SimplePipeline.runs n).Run).2.counter = 2 * ((n : Int) + 1)
    rw [hb.2, hc]; ring

/-! Claim theorems. -/

/-- Claim C2: the library exposes the no-op print function `PrintGreeting`;
calling it in any program state completes with `Except.ok` (no exception)
and performs no observable action. -/
theorem PrintGreeting_no_throw (s : Stdout) :
    PrintGreeting s = Except.ok ((), s) := rfl

/-- Claim C3: for every string `name`, including the empty string,
`Greet name` is exactly the concatenation `"Hello, " ++ name ++ "!"`, also
at the level of the underlying character lists. -/
theorem Greet_concat (name : String) :
    Greet name = "Hello, " ++ name ++ "!" ∧
      (Greet name).data = "Hello, ".data ++ name.data ++ "!".data := by
  refine ⟨rfl, ?_⟩
  simp [Greet]

/-- Claim C4: for every pair of `int` values whose mathematical sum is
representable in `int`, `Add` returns exactly that sum, negative arguments
included. -/
theorem Add_exact (lhs rhs : Int) (hl : intMin ≤ lhs ∧ lhs ≤ intMax)
    (hr : intMin ≤ rhs ∧ rhs ≤ intMax)
    (hs : intMin ≤ lhs + rhs ∧ lhs + rhs ≤ intMax) :
    Add lhs rhs = some (lhs + rhs) := by
  rw [Add, if_pos hs]

/-- Witness for claim C4 at the concrete negative pair `(-5, -3)` from the
test suite. -/
theorem Add_exact_witness :
    ((intMin ≤ (-5 : Int) ∧ (-5 : Int) ≤ intMax) ∧
      (intMin ≤ (-3 : Int) ∧ (-3 : Int) ≤ intMax) ∧
      (intMin ≤ (-5 : Int) + -3 ∧ (-5 : Int) + -3 ≤ intMax)) ∧
      Add (-5) (-3) = some (-8) :=
  ⟨⟨by decide, by decide, by decide⟩,
    Add_exact (-5) (-3) (by decide) (by decide) (by decide)⟩

/-- Claim C5: on a freshly constructed pipeline the two dependent tasks
each increment the counter once — the returned value is task B's increment
applied after task A's — and `Run` returns `2`, leaving the counter at
`2`. -/
theorem SimplePipeline_run_fresh :
    (SimplePipeline.init.Run).1 = taskB (taskA 0) ∧
      (SimplePipeline.init.Run).1 = 2 ∧
      ((SimplePipeline.init.Run).2).counter = 2 :=
  ⟨rfl, by decide, by decide⟩

/-- Claim C7: `Greet`, `Add` and `Factorial` are pure: the returned value
is the same across any two calls with equal arguments (even from different
program states), and the program state is returned unchanged. -/
theorem mylib_functions_pure :
    (∀ s s' name, (GreetRun s name).1 = (GreetRun s' name).1 ∧
      (GreetRun s name).2 = s) ∧
    (∀ s s' lhs rhs, (AddRun s lhs rhs).1 = (AddRun s' lhs rhs).1 ∧
      (AddRun s lhs rhs).2 = s) ∧
    (∀ s s' num, (FactorialRun s num).1 = (FactorialRun s' num).1 ∧
      (FactorialRun s num).2 = s) :=
  ⟨fun _ _ _ => ⟨rfl, rfl⟩, fun _ _ _ _ => ⟨rfl, rfl⟩,
    fun _ _ _ => ⟨rfl, rfl⟩⟩

/-- Claim C8: `Factorial` is total at the public interface; every negative
argument takes the `num <= 1` early return and yields `1`, the same value
as `Factorial 0` and `Factorial 1`. -/
theorem Factorial_total_neg (num : Int) (h : num < 0) :
    Factorial num = 1 ∧ Factorial 0 = 1 ∧ Factorial 1 = 1 := by
  refine ⟨?_, by decide, by decide⟩
  rw [Factorial, if_pos (by omega)]

/-- Witness for claim C8 at the concrete negative input `-5`. -/
theorem Factorial_total_neg_witness :
    (-5 : Int) < 0 ∧
      (Factorial (-5) = 1 ∧ Factorial 0 = 1 ∧ Factorial 1 = 1) :=
  ⟨by decide, Factorial_total_neg (-5) (by decide)⟩

end mylib

namespace mylib

/-- Unrolling the factorial loop: starting from a reduced accumulator, the
loop computes the product of its `k` factors modulo `2 ^ 64`. -/
theorem factLoop_eq : ∀ k r idx, r < 2 ^ 64 →
    factLoop r idx k = r * prodFrom idx k % 2 ^ 64 := by
  intro k
  induction k with
  | zero =>
    intro r idx h
    simp [factLoop, prodFrom]
    omega
  | succ k ih =>
    intro r idx h
    rw [factLoop, ih _ _ (Nat.mod_lt _ (by norm_num)), prodFrom,
      Nat.mod_mul_mod, ← mul_assoc]

/-- The product of `k` consecutive integers starting at `m + 1` completes
the factorial of `m` to the factorial of `m + k`. -/
theorem prodFrom_factorial : ∀ (k m : Nat),
    Nat.factorial m * prodFrom (m + 1) k = Nat.factorial (m + k) := by
  intro k
  induction k with
  | zero => intro m; simp [prodFrom]
  | succ k ih =>
    intro m
    calc Nat.factorial m * prodFrom (m + 1) (k + 1)
        = Nat.factorial (m + 1) * prodFrom (m + 1 + 1) k := by
          rw [prodFrom, Nat.factorial_succ]; ring
      _ = Nat.factorial (m + 1 + k) := ih (m + 1)
      _ = Nat.factorial (m + (k + 1)) := by congr 1; omega

/-- `Factorial` at a natural-number argument is the factorial reduced
modulo `2 ^ 64`. -/
theorem Factorial_natCast (n : Nat) :
    Factorial (n : Int) = Nat.factorial n % 2 ^ 64 := by
  match n with
  | 0 => rfl
  | 1 => rfl
  | n + 2 =>
    have h1 : ¬ ((n + 2 : Nat) : Int) ≤ 1 := by push_cast; omega
    have h2 : ((n + 2 : Nat) : Int).toNat - 1 = n + 1 := by omega
    rw [Factorial, if_neg h1, h2, factLoop_eq _ _ _ (by norm_num)]
    have h3 := prodFrom_factorial (n + 1) 1
    simp [Nat.factorial_one] at h3
    rw [one_mul, h3]
    congr 2
    omega

/-- `Factorial` at a nonnegative integer argument is the factorial reduced
modulo `2 ^ 64`. -/
theorem Factorial_nonneg_eq (num : Int) (h : 0 ≤ num) :
    Factorial num = Nat.factorial num.toNat % 2 ^ 64 := by
  obtain ⟨n, rfl⟩ := Int.eq_ofNat_of_zero_le h
  simpa using Factorial_natCast n

/-- Factorials up to `20!` fit in a `std::uint64_t`. -/
theorem factorial_lt_two_pow_64 (n : Nat) (h : n ≤ 20) :
    Nat.factorial n < 2 ^ 64 :=
  lt_of_le_of_lt (Nat.factorial_le h) (by decide)

/-- From `21!` on, factorials exceed the `std::uint64_t` range. -/
theorem two_pow_64_le_factorial (n : Nat) (h : 21 ≤ n) :
    2 ^ 64 ≤ Nat.factorial n :=
  le_trans (by decide) (Nat.factorial_le h)

/-- Claim C1 (amended): for every integer `0 ≤ num ≤ 20`, `Factorial num`
returns the exact mathematical factorial `num!`; beyond `20` the
`std::uint64_t` result wraps and is no longer `num!`. -/
theorem Factorial_exact_below_21 (num : Int) (h0 : 0 ≤ num)
    (h20 : num ≤ 20) : Factorial num = Nat.factorial num.toNat := by
  rw [Factorial_nonneg_eq num h0]
  exact Nat.mod_eq_of_lt (factorial_lt_two_pow_64 _ (by omega))

/-- Witness for claim C1 at the concrete input `5` from the test suite. -/
theorem Factorial_exact_below_21_witness :
    ((0 : Int) ≤ 5 ∧ (5 : Int) ≤ 20) ∧
      Factorial 5 = Nat.factorial ((5 : Int).toNat) :=
  ⟨⟨by decide, by decide⟩, Factorial_exact_below_21 5 (by decide) (by decide)⟩

/-- Counterexample to claim C1 as stated: `21 ≥ 0`, yet `Factorial 21` is
not the mathematical factorial `21!` (the product wraps modulo `2 ^ 64`). -/
theorem Factorial_21_not_exact :
    (0 : Int) ≤ 21 ∧ Factorial 21 ≠ Nat.factorial ((21 : Int).toNat) :=
  ⟨by decide, by decide⟩

/-- Away from the undefined-behaviour boundary `num = intMax`, the checked
embedding returns exactly the loop value `Factorial num`. -/
theorem FactorialChecked_eq_some (num : Int) (h : num ≠ intMax) :
    FactorialChecked num = some (Factorial num) := by
  rw [FactorialChecked, Factorial]
  by_cases h1 : num ≤ 1
  · rw [if_pos h1, if_pos h1]
  · rw [if_neg h1, if_neg h1, if_neg h]

/-- Claim C9 (amended): for every `int` input `0 ≤ num < intMax`,
`Factorial num` is defined and equals `num!` reduced modulo `2 ^ 64`, and
the result is the exact factorial precisely when `num ≤ 20`; at
`num = intMax` the loop increment `++idx` overflows (undefined behaviour),
so no result is guaranteed there. -/
theorem Factorial_mod_iff_below_intMax (num : Int) (h : 0 ≤ num)
    (hmax : num < intMax) :
    FactorialChecked num = some (Nat.factorial num.toNat % 2 ^ 64) ∧
      (FactorialChecked num = some (Nat.factorial num.toNat) ↔
        num ≤ 20) := by
  rw [FactorialChecked_eq_some num (by omega)]
  refine ⟨?_, ?_, ?_⟩
  · rw [Factorial_nonneg_eq num h]
  · intro he
    simp only [Option.some.injEq] at he
    by_contra h21
    push_neg at h21
    have hf : 2 ^ 64 ≤ Nat.factorial num.toNat :=
      two_pow_64_le_factorial _ (by omega)
    have hlt : Factorial num < 2 ^ 64 := by
      rw [Factorial_nonneg_eq num h]
      exact Nat.mod_lt _ (by norm_num)
    omega
  · intro h20
    have he : Factorial num = Nat.factorial num.toNat := by
      rw [Factorial_nonneg_eq num h]
      exact Nat.mod_eq_of_lt (factorial_lt_two_pow_64 _ (by omega))
    rw [he]

/-- Witness for claim C9 at the concrete input `5`. -/
theorem Factorial_mod_iff_below_intMax_witness :
    ((0 : Int) ≤ 5 ∧ (5 : Int) < intMax) ∧
      (FactorialChecked (5 : Int) =
          some (Nat.factorial ((5 : Int).toNat) % 2 ^ 64) ∧
        (FactorialChecked (5 : Int) =
            some (Nat.factorial ((5 : Int).toNat)) ↔ (5 : Int) ≤ 20)) :=
  ⟨⟨by decide, by decide⟩,
    Factorial_mod_iff_below_intMax 5 (by decide) (by decide)⟩

/-- Counterexample to claim C9 as stated over every `num ≥ 0`: at the
representable input `num = intMax = 2147483647` the loop's `++idx` is
signed-`int` overflow, so the program guarantees no factorial value at all
— the checked embedding returns `none`, not `num!` modulo `2 ^ 64`. -/
theorem Factorial_intMax_UB :
    (0 : Int) ≤ intMax ∧ FactorialChecked intMax = none :=
  ⟨by decide, by decide⟩

end mylib

namespace mylib

/-- Claim C6: every schedule of the taskflow graph that respects the edge
declared by `task_a.precede(task_b)` runs task A strictly before task B;
in fact `[A, B]` is the only valid schedule, so A's increment is never
performed after B's. -/
theorem schedule_A_before_B (l : List SPTask) (h : isSchedule l = true) :
    l = [SPTask.A, SPTask.B] ∧ l.indexOf SPTask.A < l.indexOf SPTask.B := by
  have hl : l = [SPTask.A, SPTask.B] := by
    rcases l with _ | ⟨x, _ | ⟨y, _ | ⟨z, t⟩⟩⟩
    · exact absurd h (by decide)
    · cases x <;> exact absurd h (by decide)
    · cases x <;> cases y <;> first | rfl | exact absurd h (by decide)
    · simp [isSchedule] at h
  subst hl
  exact ⟨rfl, by decide⟩

/-- Witness for claim C6 at the concrete schedule `[A, B]`. -/
theorem schedule_A_before_B_witness :
    isSchedule [SPTask.A, SPTask.B] = true ∧
      ([SPTask.A, SPTask.B] = [SPTask.A, SPTask.B] ∧
        List.indexOf SPTask.A [SPTask.A, SPTask.B] <
          List.indexOf SPTask.B [SPTask.A, SPTask.B]) :=
  ⟨by decide, schedule_A_before_B [SPTask.A, SPTask.B] (by decide)⟩

/-- Claim C10 (amended): below the `int` overflow boundary the counter
obeys the accumulate/reset algebra: `Run` returns the previous counter
plus two and leaves `GetCounter` at that value, `Reset` sets the counter
to zero, `GetCounter` leaves the state unchanged, and `n` runs of a fresh
pipeline (for `n ≤ 2 ^ 30 - 1`, before `int` wrap-around) leave the
counter at `2 * n`. -/
theorem pipeline_counter_algebra (p : SimplePipeline) (n : Nat)
    (h1 : intMin ≤ p.counter) (h2 : p.counter ≤ intMax - 2)
    (hn : n ≤ 2 ^ 30 - 1) :
    (p.Run).1 = (p.GetCounter).1 + 2 ∧
      (((p.Run).2).GetCounter).1 = (p.GetCounter).1 + 2 ∧
      ((p.Reset).GetCounter).1 = 0 ∧
      (p.GetCounter).2 = p ∧
      ((SimplePipeline.runs n).GetCounter).1 = 2 * (n : Int) := by
  obtain ⟨hr1, hr2⟩ := Run_no_overflow p h1 h2
  exact ⟨hr1, hr2, rfl, rfl, runs_counter n hn⟩

/-- Witness for claim C10 at the fresh pipeline and `n = 3` runs. -/
theorem pipeline_counter_algebra_witness :
    (intMin ≤ SimplePipeline.init.counter ∧
      SimplePipeline.init.counter ≤ intMax - 2 ∧
      (3 : Nat) ≤ 2 ^ 30 - 1) ∧
      ((SimplePipeline.init.Run).1 = (SimplePipeline.init.GetCounter).1 + 2 ∧
        (((SimplePipeline.init.Run).2).GetCounter).1 =
          (SimplePipeline.init.GetCounter).1 + 2 ∧
        ((SimplePipeline.init.Reset).GetCounter).1 = 0 ∧
        (SimplePipeline.init.GetCounter).2 = SimplePipeline.init ∧
        ((SimplePipeline.runs 3).GetCounter).1 = 2 * ((3 : Nat) : Int)) :=
  ⟨⟨by decide, by decide, by decide⟩,
    pipeline_counter_algebra SimplePipeline.init 3 (by decide) (by decide)
      (by decide)⟩

/-- Counterexample to claim C10 as stated: from the state with the counter
at `intMax = 2147483647`, `Run` does not return the previous counter plus
two — the atomic `int` increments wrap to the negative range. -/
theorem Run_overflow_counterexample :
    ((SimplePipeline.mk intMax).Run).1 ≠
      ((SimplePipeline.mk intMax).GetCounter).1 + 2 := by
  decide

end mylib
